import Mathlib

/-!
# Verification of the audio segmentation and resilient transcription pipeline

Shallow embedding of the core of the YouTube analyzer pipeline
(`app.py.py`): the generic retry/backoff executor `_run_with_backoff`,
the size-aware chunking algorithm `split_audio_file`, the chunk-merge
loop of `transcribe_audio_with_timestamps`, the remote error
classification of `_transcribe_single_file`, the local-GPU transcription
wrapper, and the cleanup skeleton of `process_youtube_video`.

Machine integers are embedded as `Int` (Python ints are unbounded),
float arithmetic as `ℚ`, fallible code as `Except`, and the
nondeterministic `random.uniform(0, jitter)` draw as an explicit
parameter constrained to its interval.
-/

deriving instance DecidableEq for Except

namespace YTA

/-! ## RetryExecutor: `_run_with_backoff`

The operation `func` is embedded as a map from the (1-based) attempt
number to that invocation's outcome.  `retry_exceptions` defaults to
`(Exception,)` at every call site modelled here, so every error value is
retryable and the `except` clause always matches.  The loop increments
`attempt`, calls `func`, returns on success, and on failure re-raises
when `attempt >= max_retries`, otherwise sleeps and loops.  `remaining`
is the saturated difference `max_retries - 1 - attempts_so_far`, so
`remaining = 0` exactly when the next failing attempt satisfies
`attempt >= max_retries`. -/

def backoffAux {E A : Type} (f : Nat → Except E A) : Nat → Nat → Except E A × Nat
  | 0, attempt =>
    match f (attempt + 1) with
    | .ok v => (.ok v, attempt + 1)
    | .error e => (.error e, attempt + 1)
  | r + 1, attempt =>
    match f (attempt + 1) with
    | .ok v => (.ok v, attempt + 1)
    | .error _ => backoffAux f r (attempt + 1)

/-- Embedding of `_run_with_backoff`: returns the final outcome together
with the number of invocations of `func` that were made. -/
def run_with_backoff {E A : Type} (f : Nat → Except E A) (max_retries : Nat) :
    Except E A × Nat :=
  backoffAux f (max_retries - 1) 0

/-- The `delay` local of `_run_with_backoff` before the sleep that
follows failed attempt `attempt`: it starts at `initial_delay` and is
multiplied by `backoff_factor` after each sleep. -/
def backoff_delay (initial_delay backoff_factor : ℚ) (attempt : Nat) : ℚ :=
  initial_delay * backoff_factor ^ (attempt - 1)

/-- `sleep_time = delay + random.uniform(0, jitter)`, with the sampled
value made an explicit argument `r`. -/
def sleep_time (initial_delay backoff_factor : ℚ) (attempt : Nat) (r : ℚ) : ℚ :=
  backoff_delay initial_delay backoff_factor attempt + r

/-- The sleeps the code can actually perform after failed attempt
`attempt`: `random.uniform(0, jitter)` yields some `r ∈ [0, jitter]`,
where `jitter` is the absolute jitter parameter of the policy. -/
def sleep_possible (initial_delay backoff_factor jitter : ℚ) (attempt : Nat) (s : ℚ) : Prop :=
  ∃ r, 0 ≤ r ∧ r ≤ jitter ∧ s = sleep_time initial_delay backoff_factor attempt r

/-! ## Data model shared by the transcription components -/

/-- A timestamped transcript segment.  The source dict/object field
`end` is called `stop` here because `end` is reserved in Lean. -/
structure TranscriptSegment where
  start : ℚ
  stop : ℚ
  text : String
  deriving Repr, DecidableEq

/-- `segments` plus joined `text`, the shape shared by the Whisper
responses, `CombinedTranscriptionResult` and `GPUTranscriptionResult`. -/
structure TranscriptionResult where
  segments : List TranscriptSegment
  text : String
  deriving Repr, DecidableEq

/-! ## TranscriptMerger: the merge loop of `transcribe_audio_with_timestamps` -/

/-- The `adjusted_segment` built for each source segment: both
timestamps are shifted by the current `cumulative_time`. -/
def adjust_segment (cumulative_time : ℚ) (s : TranscriptSegment) : TranscriptSegment :=
  ⟨s.start + cumulative_time, s.stop + cumulative_time, s.text⟩

/-- The chunk loop of `transcribe_audio_with_timestamps`: each chunk
result is paired with its measured `duration_seconds`; the loop shifts
its segments by `cumulative_time`, collects its `text`, and then adds
`chunk_duration_s - overlap_s` to `cumulative_time`. -/
def merge_loop (overlap_s : ℚ) :
    List (TranscriptionResult × ℚ) → ℚ → List TranscriptSegment × List String
  | [], _ => ([], [])
  | (r, dur) :: rest, cumulative_time =>
    let tail := merge_loop overlap_s rest (cumulative_time + (dur - overlap_s))
    (r.segments.map (adjust_segment cumulative_time) ++ tail.1, r.text :: tail.2)

/-- The merged `CombinedTranscriptionResult`: segments from the loop
started at `cumulative_time = 0`, text parts joined by single spaces. -/
def merge_chunk_results (chunks : List (TranscriptionResult × ℚ)) (overlap_s : ℚ) :
    TranscriptionResult :=
  let res := merge_loop overlap_s chunks 0
  ⟨res.1, String.intercalate " " res.2⟩

/-- The cumulative offset in force before chunk `i` is processed: the
sum of `duration - overlap` over the chunks before it (so it starts at
`0` and grows by `durations[i] - overlap_s` after chunk `i`). -/
def cum_offset (overlap_s : ℚ) (durations : List ℚ) (i : Nat) : ℚ :=
  ((durations.take i).map (fun d => d - overlap_s)).sum

/-! ## AudioSegmenter: `split_audio_file`

Configuration constants come from the `Config` dataclass; none of them
is overridable by environment variables. -/

def max_audio_file_size_mb : Int := 24
def audio_chunk_size_mb : Int := 20
def audio_chunk_overlap_ms : Int := 500
def min_chunk_duration_ms : Int := 300000
def max_chunks : Nat := 100

/-- One exported chunk: `[start, stop)` in milliseconds of the original
timeline (`stop` is the source's `end`). -/
structure AudioChunk where
  start : Int
  stop : Int
  deriving Repr, DecidableEq

/-- `chunk_duration_ms` as `split_audio_file` computes it for a file of
`sizeBytes` bytes lasting `totalDurationMs` milliseconds: target-size
formula, then the 5-minute minimum clamp, then the progress adjustment
`chunk_duration_ms = 2 * overlap` when `chunk_duration_ms <= overlap`.
All quantities are positive here, so `Int.floor` coincides with
Python's `int(...)` truncation. -/
def chunk_duration_raw (sizeBytes totalDurationMs : Int) : Int :=
  Int.floor (((audio_chunk_size_mb * 1024 * 1024 * 8 : Int) : ℚ) /
    (((sizeBytes * 8 : Int) : ℚ) / ((totalDurationMs : ℚ) / 1000)) * 1000)

def compute_chunk_duration (sizeBytes totalDurationMs : Int) : Int :=
  let raw := chunk_duration_raw sizeBytes totalDurationMs
  let clamped := if raw < min_chunk_duration_ms then min_chunk_duration_ms else raw
  if clamped ≤ audio_chunk_overlap_ms then audio_chunk_overlap_ms * 2 else clamped

/-- The chunk-walk loop: `fuel` is the number of chunks the loop may
still create (`max_chunks - chunk_num`), `start` the current position.
Each pass requires `start < total`, takes `[start, min (start + cd) total)`,
breaks on an empty span, and advances by `stop - ov` unless that fails
to pass `start`, in which case it advances by `cd / 2` (`cd > 0` in
every call, so `Int` division agrees with Python's floor division). -/
def chunkWalkAux (total cd ov : Int) : Nat → Int → List AudioChunk
  | 0, _ => []
  | fuel + 1, start =>
    if start < total then
      let chunkEnd := min (start + cd) total
      if chunkEnd ≤ start then []
      else
        let ns := chunkEnd - ov
        ⟨start, chunkEnd⟩ ::
          chunkWalkAux total cd ov fuel (if ns ≤ start then start + cd / 2 else ns)
    else []

/-- A chunk as returned by `split_audio_file`: either the original
file (the no-split branch) or an exported piece. -/
inductive ChunkRef where
  | original
  | piece (c : AudioChunk)
  deriving Repr, DecidableEq

/-- Filesystem side effects of `split_audio_file` that the no-split
branch must not perform. -/
inductive FsOp where
  | mkdirChunks
  | exportChunk (idx : Nat)
  deriving Repr, DecidableEq

structure SplitOutcome where
  chunks : List ChunkRef
  effects : List FsOp
  deriving Repr, DecidableEq

/-- The full chunk walk of `split_audio_file`: duration from
`compute_chunk_duration`, overlap and chunk budget from the config,
starting at position 0. -/
def split_chunks (sizeBytes totalDurationMs : Int) : List AudioChunk :=
  chunkWalkAux totalDurationMs (compute_chunk_duration sizeBytes totalDurationMs)
    audio_chunk_overlap_ms max_chunks 0

/-- Embedding of `split_audio_file`.  The small-file branch returns the
original file untouched before any directory or export happens; the
split branch runs the walk (exporting one file per chunk into the
freshly created chunk directory) and raises `AudioDownloadError` when
`chunk_num >= max_chunks` at loop exit. -/
def split_audio_file (sizeBytes totalDurationMs : Int) : Except String SplitOutcome :=
  if (sizeBytes : ℚ) / (1024 * 1024) ≤ (max_audio_file_size_mb : ℚ) then
    .ok ⟨[.original], []⟩
  else if max_chunks ≤ (split_chunks sizeBytes totalDurationMs).length then
    .error "Audio file too complex to split (would need >100 chunks)"
  else
    .ok ⟨(split_chunks sizeBytes totalDurationMs).map ChunkRef.piece,
         FsOp.mkdirChunks ::
           (List.range (split_chunks sizeBytes totalDurationMs).length).map FsOp.exportChunk⟩

/-! ## TranscriptionBackend (Remote): `_transcribe_single_file` -/

/-- `pat` matches at the head of `s` (character lists). -/
def strStartsWithChars : List Char → List Char → Bool
  | _, [] => true
  | [], _ :: _ => false
  | a :: s, b :: p => a == b && strStartsWithChars s p

def charsContain : List Char → List Char → Bool
  | [], p => p.isEmpty
  | a :: s, p => strStartsWithChars (a :: s) p || charsContain s p

/-- Python's `pattern in text` substring test. -/
def strContains (s pat : String) : Bool := charsContain s.data pat.data

/-- ASCII lower-casing of one character, the effect `str.lower()` has
on the ASCII error texts being classified. -/
def lower_char (c : Char) : Char :=
  if 'A' ≤ c ∧ c ≤ 'Z' then Char.ofNat (c.toNat + 32) else c

/-- `str(e).lower()` on ASCII text. -/
def str_lower (s : String) : String := String.mk (s.data.map lower_char)

/-- The error taxonomy raised by the transcription backends
(`FileSizeError`, `APIQuotaError`, `APIConnectionError`,
`TranscriptionError`), each carrying its message. -/
inductive AppError where
  | fileSizeError (msg : String)
  | apiQuotaError (msg : String)
  | apiConnectionError (msg : String)
  | transcriptionError (msg : String)
  deriving Repr, DecidableEq

/-- The classification performed by `_transcribe_single_file`'s `except`
block on the lower-cased text of the terminal error, after all retries
are exhausted. -/
def classify_whisper_error (e : String) : AppError :=
  let s := str_lower e
  if strContains s "413" || strContains s "payload too large" || strContains s "file size" then
    .fileSizeError
      "Audio file too large for Whisper API (limit: 24MB). Try a shorter video or reduce audio quality."
  else if strContains s "rate_limit" || strContains s "quota" || strContains s "429" then
    .apiQuotaError
      "OpenAI API rate limit or quota exceeded. Check your usage at https://platform.openai.com/usage"
  else if strContains s "connection" || strContains s "timeout" || strContains s "network" then
    .apiConnectionError "Could not connect to OpenAI API. Check your internet connection."
  else
    .transcriptionError ("Transcription failed after multiple retries: " ++ e)

/-- `_transcribe_single_file`: the Whisper API call under
`_run_with_backoff` with `max_retries = 3` and the default
`retry_exceptions = (Exception,)`; the terminal error is classified into
the taxonomy.  Also returns how many times the API call was invoked. -/
def transcribe_single_file {A : Type} (whisper_api_call : Nat → Except String A) :
    Except AppError A × Nat :=
  match run_with_backoff whisper_api_call 3 with
  | (.ok r, n) => (.ok r, n)
  | (.error e, n) => (.error (classify_whisper_error e), n)

/-! ## TranscriptionBackend (Local): `transcribe_audio_with_local_gpu` -/

/-- `transcribe_audio_with_local_gpu`: the model invocation
`_gpu_transcription` runs under `_run_with_backoff` with
`max_retries = 2`; collected segments are joined into a
`GPUTranscriptionResult`; any failure is wrapped as
`TranscriptionError("GPU transcription failed: ...")`.  Also returns
how many times the model was invoked. -/
def transcribe_audio_with_local_gpu
    (gpu_transcription : Nat → Except String (List TranscriptSegment)) :
    Except AppError TranscriptionResult × Nat :=
  match run_with_backoff gpu_transcription 2 with
  | (.ok segs, n) =>
    (.ok ⟨segs, String.intercalate " " (segs.map (fun s => s.text))⟩, n)
  | (.error e, n) =>
    (.error (.transcriptionError ("GPU transcription failed: " ++ e)), n)

/-! ## PipelineOrchestrator: cleanup skeleton of `process_youtube_video`

The filesystem is a list of paths; every intermediate file of a run
lives under `session/`.  Each stage of the `try` block is observed as
`Except`: on success the list of file names it creates inside the
session directory, on failure the error it raises. -/

def session_path (name : String) : String := "session/" ++ name

/-- `shutil.rmtree(session_dir)`: recursively remove everything under
the session directory. -/
def cleanup_session (fs : List String) : List String :=
  fs.filter (fun p => !(p.startsWith "session/"))

/-- The `try` block: run the stages in order, accumulating created
files; stop at the first failure, reporting the filesystem as it stands
there. -/
def run_stages (fs : List String) :
    List (Except String (List String)) → Except String Unit × List String
  | [] => (.ok (), fs)
  | .ok created :: rest => run_stages (fs ++ created.map session_path) rest
  | .error e :: _ => (.error e, fs)

/-- Control skeleton of `process_youtube_video`: on any stage failure
the `except` block removes the session directory recursively and
re-raises the very same error. -/
def process_youtube_video (fs : List String)
    (stages : List (Except String (List String))) :
    Except String Unit × List String :=
  match run_stages fs stages with
  | (.ok u, fs1) => (.ok u, fs1)
  | (.error e, fs1) => (.error e, cleanup_session fs1)

/-! ### Helper lemmas about the retry loop -/

theorem backoffAux_ok {E A : Type} (f : Nat → Except E A) (r a : Nat) (v : A)
    (h : f (a + 1) = .ok v) : backoffAux f r a = (.ok v, a + 1) := by
  cases r <;> simp [backoffAux, h]

theorem backoffAux_succ_after {E A : Type} (f : Nat → Except E A) (v : A) :
    ∀ (k r a : Nat), k ≤ r →
      (∀ i, a + 1 ≤ i → i ≤ a + k → ∃ e, f i = .error e) →
      f (a + k + 1) = .ok v →
      backoffAux f r a = (.ok v, a + k + 1) := by
  intro k
  induction k with
  | zero =>
    intro r a _ _ hok
    simpa using backoffAux_ok f r a v (by simpa using hok)
  | succ k ih =>
    intro r a hkr hfail hok
    obtain ⟨r', rfl⟩ : ∃ r', r = r' + 1 := ⟨r - 1, by omega⟩
    obtain ⟨e, he⟩ := hfail (a + 1) (by omega) (by omega)
    have step : backoffAux f (r' + 1) a = backoffAux f r' (a + 1) := by
      simp [backoffAux, he]
    rw [step]
    have := ih r' (a + 1) (by omega)
      (fun i h1 h2 => hfail i (by omega) (by omega))
      (by
        have : a + 1 + k + 1 = a + (k + 1) + 1 := by omega
        rw [this]; exact hok)
    rw [this]
    congr 1
    omega

theorem backoffAux_all_fail {E A : Type} (f : Nat → Except E A) (err : Nat → E)
    (hf : ∀ i, f i = .error (err i)) :
    ∀ (r a : Nat), backoffAux f r a = (.error (err (a + r + 1)), a + r + 1) := by
  intro r
  induction r with
  | zero => intro a; simp [backoffAux, hf (a + 1)]
  | succ r ih =>
    intro a
    have step : backoffAux f (r + 1) a = backoffAux f r (a + 1) := by
      simp [backoffAux, hf (a + 1)]
    rw [step, ih (a + 1)]
    have : a + 1 + r + 1 = a + (r + 1) + 1 := by omega
    rw [this]

/-! ### C1: retry-count contract of `_run_with_backoff` -/

/-- C1 counterexample: the claim quantifies over every retry policy, but
with `maxAttempts = 0` an always-failing operation is still invoked once
(the loop body runs before the attempt bound is checked), not
`maxAttempts = 0` times. -/
theorem C1_counterexample :
    run_with_backoff (fun _ => (.error 0 : Except Nat Nat)) 0 = (.error 0, 1)
    ∧ (1 : Nat) ≠ 0 := by
  exact ⟨rfl, by decide⟩

/-- C1 (amended): for every retry policy with `maxAttempts ≥ 1`: if the
operation fails on its first `k` attempts (`k + 1 ≤ maxAttempts`) and
succeeds on attempt `k + 1`, `_run_with_backoff` returns the success
value after exactly `k + 1` invocations; if it fails on every attempt,
`_run_with_backoff` makes exactly `maxAttempts` invocations and
propagates the error raised by the final attempt unmodified. -/
theorem C1_run_with_backoff_attempts {E A : Type} (f : Nat → Except E A) (m : Nat) :
    (∀ (k : Nat) (v : A), k + 1 ≤ m →
        (∀ i, 1 ≤ i → i ≤ k → ∃ e, f i = .error e) →
        f (k + 1) = .ok v →
        run_with_backoff f m = (.ok v, k + 1))
    ∧ (∀ err : Nat → E, 1 ≤ m → (∀ i, f i = .error (err i)) →
        run_with_backoff f m = (.error (err m), m)) := by
  constructor
  · intro k v hk hfail hok
    unfold run_with_backoff
    have := backoffAux_succ_after f v k (m - 1) 0 (by omega)
      (fun i h1 h2 => hfail i (by omega) (by omega))
      (by simpa using hok)
    simpa using this
  · intro err hm hf
    unfold run_with_backoff
    rw [backoffAux_all_fail f err hf (m - 1) 0]
    have h1 : 0 + (m - 1) + 1 = m := by omega
    rw [h1]

/-- Witness for C1: an operation failing twice then succeeding returns
the value in 3 calls under a 5-attempt policy; an operation that always
fails under a 4-attempt policy fails after exactly 4 calls with the
fourth attempt's error. -/
theorem C1_witness :
    run_with_backoff (fun i => if i < 3 then (.error i : Except Nat Nat) else .ok 42) 5
      = (.ok 42, 3)
    ∧ run_with_backoff (fun i => (.error i : Except Nat Nat)) 4 = (.error 4, 4) := by
  constructor
  · exact (C1_run_with_backoff_attempts (fun i => if i < 3 then .error i else .ok 42) 5).1
      2 42 (by decide) (fun i h1 h2 => ⟨i, by rw [if_pos (by omega : i < 3)]⟩) rfl
  · exact (C1_run_with_backoff_attempts (fun i => .error i) 4).2 (fun i => i)
      (by decide) (fun i => rfl)

/-! ### C3: the jitter term of the backoff sleep -/

/-- C3 counterexample: with `initial_delay = 2`, `backoff_factor = 2`,
`jitter = 3/10`, the base delay before the retry after failed attempt 2
is `4`.  The claim's jitter interval `[0, jitter × base] = [0, 6/5]`
contains `6/5`, so a sleep of `4 + 6/5` should be possible — but the
code draws from `[0, jitter] = [0, 3/10]`, an absolute interval not
scaled by the current delay, and cannot sleep that long. -/
theorem C3_counterexample :
    (0 : ℚ) ≤ 6 / 5
    ∧ (6 / 5 : ℚ) ≤ (3 / 10) * backoff_delay 2 2 2
    ∧ ¬ sleep_possible 2 2 (3 / 10) 2 (backoff_delay 2 2 2 + 6 / 5) := by
  have hb : backoff_delay 2 2 2 = 4 := by norm_num [backoff_delay]
  refine ⟨by norm_num, by rw [hb]; norm_num, ?_⟩
  rintro ⟨r, h0, hj, hs⟩
  rw [sleep_time] at hs
  have hr : r = 6 / 5 := by linarith
  rw [hr] at hj
  norm_num at hj

/-- C3 (amended): for every retryable failure on attempt `n ≥ 1` (with
`n < maxAttempts`), the executor sleeps for
`initialDelay × backoffFactor^(n-1)` plus a uniformly random value drawn
from `[0, jitter]`, where `jitter` is the policy's absolute jitter
parameter (not scaled by the current delay); the sleep before retry
`n+1` always lies between `base` and `base + jitter`. -/
theorem C3_sleep_bounds (initial_delay backoff_factor jitter : ℚ) (n : Nat) (r : ℚ)
    (_hn : 1 ≤ n) (h0 : 0 ≤ r) (hj : r ≤ jitter) :
    backoff_delay initial_delay backoff_factor n
      ≤ sleep_time initial_delay backoff_factor n r
    ∧ sleep_time initial_delay backoff_factor n r
      ≤ backoff_delay initial_delay backoff_factor n + jitter
    ∧ sleep_possible initial_delay backoff_factor jitter n
        (sleep_time initial_delay backoff_factor n r) := by
  refine ⟨?_, ?_, ⟨r, h0, hj, rfl⟩⟩ <;> (unfold sleep_time; linarith)

/-- Witness for C3: the bounds at `initial_delay = 2`,
`backoff_factor = 2`, `jitter = 1`, attempt 1, sampled value `0`. -/
theorem C3_witness :
    backoff_delay 2 2 1 ≤ sleep_time 2 2 1 0
    ∧ sleep_time 2 2 1 0 ≤ backoff_delay 2 2 1 + 1
    ∧ sleep_possible 2 2 1 1 (sleep_time 2 2 1 0) :=
  C3_sleep_bounds 2 2 1 1 0 (le_refl 1) (le_refl 0) zero_le_one

/-! ### C8: the no-split fast path -/

/-- C8: for every asset whose size in MB is at most the configured
limit, `split_audio_file` returns exactly one chunk that is the original
asset itself, with no export and no chunk-directory creation. -/
theorem C8_small_file_no_split (sizeBytes totalDurationMs : Int)
    (h : (sizeBytes : ℚ) / (1024 * 1024) ≤ (max_audio_file_size_mb : ℚ)) :
    split_audio_file sizeBytes totalDurationMs = .ok ⟨[ChunkRef.original], []⟩ := by
  unfold split_audio_file
  rw [if_pos h]

/-- Witness for C8: a 1 MB, 60 s file is returned whole. -/
theorem C8_witness :
    split_audio_file 1000000 60000 = .ok ⟨[ChunkRef.original], []⟩ :=
  C8_small_file_no_split 1000000 60000 (by norm_num [max_audio_file_size_mb])

/-! ### Helper lemmas about the chunk walk -/

/-- One unfolding step of the walk, with the `let`-bindings expanded. -/
theorem chunkWalkAux_succ (total cd ov : Int) (fuel : Nat) (s : Int) :
    chunkWalkAux total cd ov (fuel + 1) s =
      if s < total then
        if min (s + cd) total ≤ s then []
        else
          AudioChunk.mk s (min (s + cd) total) ::
            chunkWalkAux total cd ov fuel
              (if min (s + cd) total - ov ≤ s then s + cd / 2
               else min (s + cd) total - ov)
      else [] := rfl

theorem chunkWalkAux_head_start (total cd ov : Int) :
    ∀ (fuel : Nat) (s : Int) (c : AudioChunk) (l : List AudioChunk),
      chunkWalkAux total cd ov fuel s = c :: l → c.start = s := by
  intro fuel s c l h
  cases fuel with
  | zero => simp [chunkWalkAux] at h
  | succ f =>
    rw [chunkWalkAux_succ] at h
    by_cases h1 : s < total
    · rw [if_pos h1] at h
      by_cases h2 : min (s + cd) total ≤ s
      · rw [if_pos h2] at h
        cases h
      · rw [if_neg h2] at h
        rw [List.cons.injEq] at h
        rw [← h.1]
    · rw [if_neg h1] at h
      cases h

theorem chunkWalkAux_head_mem (total cd ov : Int) (fuel : Nat) (x : Int) :
    ∀ b ∈ (chunkWalkAux total cd ov fuel x).head?, b.start = x := by
  intro b hb
  cases hw : chunkWalkAux total cd ov fuel x with
  | nil => rw [hw] at hb; simp at hb
  | cons y ys =>
    rw [hw] at hb
    simp at hb
    subst hb
    exact chunkWalkAux_head_start total cd ov fuel x y ys hw

/-- Consecutive chunks of the walk are linked exactly by the advance
rule of the loop: the next start is `stop - ov`, or `start + cd / 2`
when that would not pass the previous start. -/
theorem chunkWalkAux_chain (total cd ov : Int) :
    ∀ (fuel : Nat) (s : Int),
      List.Chain'
        (fun c c' : AudioChunk =>
          c'.start = if c.stop - ov ≤ c.start then c.start + cd / 2 else c.stop - ov)
        (chunkWalkAux total cd ov fuel s) := by
  intro fuel
  induction fuel with
  | zero => intro s; simp [chunkWalkAux]
  | succ f ih =>
    intro s
    rw [chunkWalkAux_succ]
    by_cases h1 : s < total
    · rw [if_pos h1]
      by_cases h2 : min (s + cd) total ≤ s
      · rw [if_pos h2]
        exact List.chain'_nil
      · rw [if_neg h2]
        rw [List.chain'_cons']
        refine ⟨fun b hb => ?_, ih _⟩
        have := chunkWalkAux_head_mem total cd ov f _ b hb
        simpa using this
    · rw [if_neg h1]
      exact List.chain'_nil

theorem chunkWalkAux_length_le (total cd ov : Int) :
    ∀ (fuel : Nat) (s : Int), (chunkWalkAux total cd ov fuel s).length ≤ fuel := by
  intro fuel
  induction fuel with
  | zero => intro s; simp [chunkWalkAux]
  | succ f ih =>
    intro s
    rw [chunkWalkAux_succ]
    by_cases h1 : s < total
    · rw [if_pos h1]
      by_cases h2 : min (s + cd) total ≤ s
      · rw [if_pos h2]
        simp
      · rw [if_neg h2]
        simpa using Nat.succ_le_succ (ih _)
    · rw [if_neg h1]
      simp

/-- If the walk uses up all of `fuel + 1`, it uses up all of `fuel`:
cutting the budget by one cuts the walk one chunk short. -/
theorem chunkWalkAux_length_pred (total cd ov : Int) :
    ∀ (fuel : Nat) (s : Int),
      (chunkWalkAux total cd ov (fuel + 1) s).length = fuel + 1 →
      (chunkWalkAux total cd ov fuel s).length = fuel := by
  intro fuel
  induction fuel with
  | zero => intro s _; simp [chunkWalkAux]
  | succ f ih =>
    intro s h
    rw [chunkWalkAux_succ] at h
    rw [chunkWalkAux_succ]
    by_cases h1 : s < total
    · rw [if_pos h1] at h ⊢
      by_cases h2 : min (s + cd) total ≤ s
      · rw [if_pos h2] at h
        simp at h
      · rw [if_neg h2] at h ⊢
        simp only [List.length_cons] at h ⊢
        exact congrArg (· + 1) (ih _ (by omega))
    · rw [if_neg h1] at h
      simp at h

/-! ### C4: contiguity modulo overlap -/

/-- C4: for an asset over the size limit, the chunks of a successful
`split_audio_file` are contiguous modulo overlap: for consecutive
chunks, `stop i - start (i+1) = overlap` whenever the overlap advance
passes the previous start, and otherwise
`start (i+1) = start i + chunk_duration / 2` (the forced half-duration
fallback). -/
theorem C4_chunk_overlap (sizeBytes totalDurationMs : Int) (o : SplitOutcome)
    (hbig : (max_audio_file_size_mb : ℚ) < (sizeBytes : ℚ) / (1024 * 1024))
    (hok : split_audio_file sizeBytes totalDurationMs = .ok o) :
    ∃ cs : List AudioChunk,
      o.chunks = cs.map ChunkRef.piece
      ∧ ∀ (i : Nat) (h : i + 1 < cs.length),
          ((cs.get ⟨i, by omega⟩).start
              < (cs.get ⟨i, by omega⟩).stop - audio_chunk_overlap_ms →
            (cs.get ⟨i, by omega⟩).stop - (cs.get ⟨i + 1, h⟩).start
              = audio_chunk_overlap_ms)
          ∧ ((cs.get ⟨i, by omega⟩).stop - audio_chunk_overlap_ms
                ≤ (cs.get ⟨i, by omega⟩).start →
            (cs.get ⟨i + 1, h⟩).start
              = (cs.get ⟨i, by omega⟩).start
                + compute_chunk_duration sizeBytes totalDurationMs / 2) := by
  unfold split_audio_file at hok
  rw [if_neg (not_le.mpr hbig)] at hok
  refine ⟨split_chunks sizeBytes totalDurationMs, ?_, ?_⟩
  · split at hok
    · cases hok
    · cases hok
      rfl
  · intro i h
    have hchain : List.Chain'
        (fun c c' : AudioChunk =>
          c'.start = if c.stop - audio_chunk_overlap_ms ≤ c.start then
              c.start + compute_chunk_duration sizeBytes totalDurationMs / 2
            else c.stop - audio_chunk_overlap_ms)
        (split_chunks sizeBytes totalDurationMs) :=
      chunkWalkAux_chain totalDurationMs
        (compute_chunk_duration sizeBytes totalDurationMs) audio_chunk_overlap_ms max_chunks 0
    rw [List.chain'_iff_get] at hchain
    have hR := hchain i (by omega)
    constructor
    · intro hlt
      rw [hR, if_neg (by omega)]
      omega
    · intro hle
      rw [hR, if_pos (by omega)]

/-! ### Concrete evaluations of the segmenter

`asset30`: a 30 MB (31457280-byte), 3600000 ms asset — splits into 3
chunks.  `giant296`: a 10^12-byte, 29651000 ms asset — its walk needs
exactly 100 chunks.  `giant1e8`: a 10^12-byte, 100000000 ms asset — its
walk needs more than 100 chunks. -/

theorem chunk_duration_raw_asset30 : chunk_duration_raw 31457280 3600000 = 2400000 := by
  unfold chunk_duration_raw
  rw [Int.floor_eq_iff]
  norm_num [audio_chunk_size_mb]

theorem compute_chunk_duration_asset30 :
    compute_chunk_duration 31457280 3600000 = 2400000 := by
  simp only [compute_chunk_duration, chunk_duration_raw_asset30]
  decide

theorem chunk_duration_raw_giant296 :
    chunk_duration_raw 1000000000000 29651000 = 621 := by
  unfold chunk_duration_raw
  rw [Int.floor_eq_iff]
  norm_num [audio_chunk_size_mb]

theorem compute_chunk_duration_giant296 :
    compute_chunk_duration 1000000000000 29651000 = 300000 := by
  simp only [compute_chunk_duration, chunk_duration_raw_giant296]
  decide

theorem chunk_duration_raw_giant1e8 :
    chunk_duration_raw 1000000000000 100000000 = 2097 := by
  unfold chunk_duration_raw
  rw [Int.floor_eq_iff]
  norm_num [audio_chunk_size_mb]

theorem compute_chunk_duration_giant1e8 :
    compute_chunk_duration 1000000000000 100000000 = 300000 := by
  simp only [compute_chunk_duration, chunk_duration_raw_giant1e8]
  decide

theorem split_eval_asset30 :
    split_audio_file 31457280 3600000
      = .ok ⟨[ChunkRef.piece ⟨0, 2400000⟩, ChunkRef.piece ⟨2399500, 3600000⟩,
              ChunkRef.piece ⟨3599500, 3600000⟩],
             [FsOp.mkdirChunks, FsOp.exportChunk 0, FsOp.exportChunk 1,
              FsOp.exportChunk 2]⟩ := by
  unfold split_audio_file split_chunks
  rw [if_neg (by norm_num [max_audio_file_size_mb]), compute_chunk_duration_asset30]
  decide

theorem split_eval_giant296 :
    split_audio_file 1000000000000 29651000
      = .error "Audio file too complex to split (would need >100 chunks)" := by
  unfold split_audio_file split_chunks
  rw [if_neg (by norm_num [max_audio_file_size_mb]), compute_chunk_duration_giant296]
  decide

theorem split_eval_giant1e8 :
    split_audio_file 1000000000000 100000000
      = .error "Audio file too complex to split (would need >100 chunks)" := by
  unfold split_audio_file split_chunks
  rw [if_neg (by norm_num [max_audio_file_size_mb]), compute_chunk_duration_giant1e8]
  decide

/-- Witness for C4: the 30 MB, 1 h asset splits into three pieces
satisfying the contiguity property. -/
theorem C4_witness :
    ∃ cs : List AudioChunk,
      (SplitOutcome.mk
        [ChunkRef.piece ⟨0, 2400000⟩, ChunkRef.piece ⟨2399500, 3600000⟩,
         ChunkRef.piece ⟨3599500, 3600000⟩]
        [FsOp.mkdirChunks, FsOp.exportChunk 0, FsOp.exportChunk 1,
         FsOp.exportChunk 2]).chunks = cs.map ChunkRef.piece
      ∧ ∀ (i : Nat) (h : i + 1 < cs.length),
          ((cs.get ⟨i, by omega⟩).start
              < (cs.get ⟨i, by omega⟩).stop - audio_chunk_overlap_ms →
            (cs.get ⟨i, by omega⟩).stop - (cs.get ⟨i + 1, h⟩).start
              = audio_chunk_overlap_ms)
          ∧ ((cs.get ⟨i, by omega⟩).stop - audio_chunk_overlap_ms
                ≤ (cs.get ⟨i, by omega⟩).start →
            (cs.get ⟨i + 1, h⟩).start
              = (cs.get ⟨i, by omega⟩).start
                + compute_chunk_duration 31457280 3600000 / 2) :=
  C4_chunk_overlap 31457280 3600000 _ (by norm_num [max_audio_file_size_mb])
    split_eval_asset30

/-! ### C7: the 100-chunk safety stop -/

/-- C7: `split_audio_file` never returns more than the configured
maximum of 100 chunks, and an oversized asset whose chunk walk would
exceed that maximum makes it raise the fatal segmentation error
(`AudioDownloadError`) instead of looping. -/
theorem C7_max_chunk_limit (sizeBytes totalDurationMs : Int) :
    (∀ o : SplitOutcome, split_audio_file sizeBytes totalDurationMs = .ok o →
        o.chunks.length ≤ max_chunks)
    ∧ ((max_audio_file_size_mb : ℚ) < (sizeBytes : ℚ) / (1024 * 1024) →
        (chunkWalkAux totalDurationMs (compute_chunk_duration sizeBytes totalDurationMs)
            audio_chunk_overlap_ms (max_chunks + 1) 0).length = max_chunks + 1 →
        split_audio_file sizeBytes totalDurationMs
          = .error "Audio file too complex to split (would need >100 chunks)") := by
  constructor
  · intro o hok
    unfold split_audio_file at hok
    split at hok
    · cases hok
      decide
    · split at hok
      · cases hok
      · cases hok
        rename_i hlen
        simp only [List.length_map]
        omega
  · intro hbig hlen
    unfold split_audio_file
    rw [if_neg (not_le.mpr hbig)]
    have h100 : (split_chunks sizeBytes totalDurationMs).length = max_chunks :=
      chunkWalkAux_length_pred totalDurationMs
        (compute_chunk_duration sizeBytes totalDurationMs) audio_chunk_overlap_ms
        max_chunks 0 hlen
    rw [if_pos (by omega)]

/-- Witness for C7: the 30 MB asset succeeds within the limit; the
10^12-byte, 10^8 ms asset needs more than 100 chunks and fails. -/
theorem C7_witness :
    (SplitOutcome.mk
        [ChunkRef.piece ⟨0, 2400000⟩, ChunkRef.piece ⟨2399500, 3600000⟩,
         ChunkRef.piece ⟨3599500, 3600000⟩]
        [FsOp.mkdirChunks, FsOp.exportChunk 0, FsOp.exportChunk 1,
         FsOp.exportChunk 2]).chunks.length ≤ max_chunks
    ∧ split_audio_file 1000000000000 100000000
        = .error "Audio file too complex to split (would need >100 chunks)" := by
  constructor
  · exact (C7_max_chunk_limit 31457280 3600000).1 _ split_eval_asset30
  · exact (C7_max_chunk_limit 1000000000000 100000000).2
      (by norm_num [max_audio_file_size_mb])
      (by rw [compute_chunk_duration_giant1e8]; decide)

/-! ### C10: the bound is strict even at exact coverage -/

/-- C10: every successful `split_audio_file` returns strictly fewer
than 100 chunks.  The budget check fires even when the 100th chunk
exactly completes coverage: for the 10^12-byte, 29651000 ms asset the
chunk duration is 300000 ms, the walk needs exactly 100 chunks, the
last of which ends exactly at the total duration — yet
`split_audio_file` raises the segmentation error. -/
theorem C10_strict_chunk_bound :
    (∀ (sizeBytes totalDurationMs : Int) (o : SplitOutcome),
        split_audio_file sizeBytes totalDurationMs = .ok o →
        o.chunks.length < max_chunks)
    ∧ compute_chunk_duration 1000000000000 29651000 = 300000
    ∧ (chunkWalkAux 29651000 300000 audio_chunk_overlap_ms (max_chunks + 1) 0).length
        = max_chunks
    ∧ (chunkWalkAux 29651000 300000 audio_chunk_overlap_ms (max_chunks + 1) 0).getLast?.map
        AudioChunk.stop = some 29651000
    ∧ split_audio_file 1000000000000 29651000
        = .error "Audio file too complex to split (would need >100 chunks)" := by
  refine ⟨?_, compute_chunk_duration_giant296, by decide, by decide, split_eval_giant296⟩
  intro sizeBytes totalDurationMs o hok
  unfold split_audio_file at hok
  split at hok
  · cases hok
    decide
  · split at hok
    · cases hok
    · cases hok
      rename_i hlen
      simp only [List.length_map]
      omega

/-- Witness for C10: the 30 MB asset's successful split stays strictly
under the limit. -/
theorem C10_witness :
    (SplitOutcome.mk
        [ChunkRef.piece ⟨0, 2400000⟩, ChunkRef.piece ⟨2399500, 3600000⟩,
         ChunkRef.piece ⟨3599500, 3600000⟩]
        [FsOp.mkdirChunks, FsOp.exportChunk 0, FsOp.exportChunk 1,
         FsOp.exportChunk 2]).chunks.length < max_chunks :=
  C10_strict_chunk_bound.1 31457280 3600000 _ split_eval_asset30

/-! ### C2: the merge loop's offset bookkeeping -/

theorem cum_offset_zero (overlap_s : ℚ) (ds : List ℚ) : cum_offset overlap_s ds 0 = 0 := rfl

theorem cum_offset_succ_cons (overlap_s d : ℚ) (ds : List ℚ) (i : Nat) :
    cum_offset overlap_s (d :: ds) (i + 1)
      = (d - overlap_s) + cum_offset overlap_s ds i := by
  simp [cum_offset]

theorem cum_offset_succ (overlap_s : ℚ) :
    ∀ (ds : List ℚ) (i : Nat) (h : i < ds.length),
      cum_offset overlap_s ds (i + 1)
        = cum_offset overlap_s ds i + (ds.get ⟨i, h⟩ - overlap_s) := by
  intro ds
  induction ds with
  | nil => intro i h; simp at h
  | cons d tl ih =>
    intro i h
    cases i with
    | zero =>
      rw [cum_offset_succ_cons]
      show d - overlap_s + cum_offset overlap_s tl 0 = 0 + (d - overlap_s)
      rw [cum_offset_zero]
      ring
    | succ j =>
      rw [cum_offset_succ_cons, ih j (by simpa using h), cum_offset_succ_cons]
      simp [List.get]
      ring

/-- Closed form of the merge loop started at an arbitrary cumulative
offset: chunk `i`'s segments are shifted by the start offset plus the
accumulated `duration - overlap` of the earlier chunks, and the text
parts are collected in order. -/
theorem merge_loop_eq (overlap_s : ℚ) :
    ∀ (chunks : List (TranscriptionResult × ℚ)) (c : ℚ),
      merge_loop overlap_s chunks c =
        ((chunks.mapIdx fun i p =>
            p.1.segments.map
              (adjust_segment (c + cum_offset overlap_s (chunks.map Prod.snd) i))).flatten,
         chunks.map fun p => p.1.text) := by
  intro chunks
  induction chunks with
  | nil => intro c; simp [merge_loop]
  | cons hd tl ih =>
    intro c
    obtain ⟨r, d⟩ := hd
    rw [merge_loop, ih (c + (d - overlap_s))]
    simp only [List.map_cons, List.mapIdx_cons, List.flatten_cons, cum_offset_zero,
      add_zero, cum_offset_succ_cons, ← add_assoc]

/-- C2: the merge starts from cumulative offset `0`; the offset in
force before chunk `i+1` exceeds the one before chunk `i` by exactly
`durations[i] - overlap_s`; every segment of chunk `i` is shifted by
the offset in force for chunk `i` and appended in order; and the merged
text is the chunks' texts joined by single spaces. -/
theorem C2_merge_offsets (chunks : List (TranscriptionResult × ℚ)) (overlap_s : ℚ) :
    cum_offset overlap_s (chunks.map Prod.snd) 0 = 0
    ∧ (∀ (i : Nat) (h : i < chunks.length),
        cum_offset overlap_s (chunks.map Prod.snd) (i + 1)
          = cum_offset overlap_s (chunks.map Prod.snd) i
            + ((chunks.get ⟨i, h⟩).2 - overlap_s))
    ∧ (merge_chunk_results chunks overlap_s).segments
        = (chunks.mapIdx fun i p =>
            p.1.segments.map
              (adjust_segment (cum_offset overlap_s (chunks.map Prod.snd) i))).flatten
    ∧ (merge_chunk_results chunks overlap_s).text
        = String.intercalate " " (chunks.map fun p => p.1.text) := by
  refine ⟨rfl, ?_, ?_, ?_⟩
  · intro i h
    rw [cum_offset_succ overlap_s (chunks.map Prod.snd) i (by simpa using h)]
    congr 2
    simp [List.get_eq_getElem, List.getElem_map]
  · unfold merge_chunk_results
    rw [merge_loop_eq]
    simp only [zero_add]
  · unfold merge_chunk_results
    rw [merge_loop_eq]

/-- Witness for C2: the offset-increment clause at the spec scenario's
two fake 600 s chunks with half-second overlap, instantiated at
`i = 0`. -/
theorem C2_witness :
    cum_offset (1 / 2)
        ([((⟨[⟨0, 300, "a"⟩], "a"⟩ : TranscriptionResult), (600 : ℚ)),
          (⟨[⟨0, 300, "b"⟩], "b"⟩, 600)].map Prod.snd) (0 + 1)
      = cum_offset (1 / 2)
          ([((⟨[⟨0, 300, "a"⟩], "a"⟩ : TranscriptionResult), (600 : ℚ)),
            (⟨[⟨0, 300, "b"⟩], "b"⟩, 600)].map Prod.snd) 0
        + (([((⟨[⟨0, 300, "a"⟩], "a"⟩ : TranscriptionResult), (600 : ℚ)),
             (⟨[⟨0, 300, "b"⟩], "b"⟩, 600)].get ⟨0, by decide⟩).2 - 1 / 2) :=
  (C2_merge_offsets
    [(⟨[⟨0, 300, "a"⟩], "a"⟩, 600), (⟨[⟨0, 300, "b"⟩], "b"⟩, 600)] (1 / 2)).2.1 0
    (by decide)

/-! ### C5: quota errors and the generic retry path -/

/-- C5 counterexample: a persistent quota-shaped error from the remote
backend IS retried by the generic-error path of the retry executor —
the Whisper call is invoked 3 times, not once, before the terminal
error is classified and wrapped. -/
theorem C5_counterexample :
    transcribe_single_file
        (fun _ => (.error "Error code: 429 - rate_limit exceeded" : Except String Unit))
      = (.error (.apiQuotaError
          "OpenAI API rate limit or quota exceeded. Check your usage at https://platform.openai.com/usage"),
         3)
    ∧ (3 : Nat) ≠ 1 :=
  ⟨rfl, by decide⟩

/-- C5 (amended): a terminal quota-shaped error from the remote backend
IS retried by the retry executor's generic-error path
(`retry_exceptions` defaults to `(Exception,)`), being attempted exactly
`max_retries = 3` times; only after retries are exhausted is it wrapped
into the taxonomy's `QuotaExceeded` kind (`APIQuotaError`) before
reaching the orchestrator's caller. -/
theorem C5_quota_retried_then_wrapped {A : Type} (call : Nat → Except String A)
    (msgs : Nat → String) (hfail : ∀ n, call n = .error (msgs n))
    (hq : ∃ m, classify_whisper_error (msgs 3) = .apiQuotaError m) :
    ∃ m, transcribe_single_file call = (.error (.apiQuotaError m), 3) := by
  obtain ⟨m, hm⟩ := hq
  refine ⟨m, ?_⟩
  have hrun : run_with_backoff call 3 = (.error (msgs 3), 3) := by
    unfold run_with_backoff
    rw [backoffAux_all_fail call msgs hfail]
  unfold transcribe_single_file
  simp only [hrun]
  rw [hm]

/-- Witness for C5: the always-"quota" operation is wrapped into
`APIQuotaError` after 3 attempts. -/
theorem C5_witness :
    ∃ m, transcribe_single_file (fun _ => (.error "quota" : Except String Unit))
      = (.error (.apiQuotaError m), 3) :=
  C5_quota_retried_then_wrapped (fun _ => .error "quota") (fun _ => "quota")
    (fun _ => rfl)
    ⟨"OpenAI API rate limit or quota exceeded. Check your usage at https://platform.openai.com/usage",
     rfl⟩

/-! ### C6: the local backend's retry and wrapping behaviour -/

/-- C6 counterexample: the local GPU model invocation runs under
`_run_with_backoff` with `max_retries = 2`, so a persistently failing
model call is invoked twice — not exactly once as the claim states. -/
theorem C6_counterexample :
    transcribe_audio_with_local_gpu (fun _ => .error "CUDA out of memory")
      = (.error (.transcriptionError "GPU transcription failed: CUDA out of memory"), 2)
    ∧ (2 : Nat) ≠ 1 :=
  ⟨rfl, by decide⟩

/-- C6 (amended): every failure of the local GPU backend is wrapped as
a generic `TranscriptionError`, but the model invocation DOES run in a
backoff loop with `max_retries = 2`: a first-attempt success invokes
the model once, while a persistent failure invokes it exactly twice
before the wrapped error propagates. -/
theorem C6_gpu_wrap_and_retry (gpu : Nat → Except String (List TranscriptSegment)) :
    (∀ segs, gpu 1 = .ok segs →
        transcribe_audio_with_local_gpu gpu
          = (.ok ⟨segs, String.intercalate " " (segs.map (fun s => s.text))⟩, 1))
    ∧ (∀ msgs : Nat → String, (∀ n, gpu n = .error (msgs n)) →
        transcribe_audio_with_local_gpu gpu
          = (.error (.transcriptionError ("GPU transcription failed: " ++ msgs 2)), 2)) := by
  constructor
  · intro segs h1
    have hrun : run_with_backoff gpu 2 = (.ok segs, 1) := by
      unfold run_with_backoff
      exact backoffAux_ok gpu (2 - 1) 0 segs (by simpa using h1)
    unfold transcribe_audio_with_local_gpu
    simp only [hrun]
  · intro msgs hfail
    have hrun : run_with_backoff gpu 2 = (.error (msgs 2), 2) := by
      unfold run_with_backoff
      rw [backoffAux_all_fail gpu msgs hfail]
    unfold transcribe_audio_with_local_gpu
    simp only [hrun]

/-- Witness for C6: one segment on first-attempt success (one model
call); the wrapped `TranscriptionError` after two calls on persistent
failure. -/
theorem C6_witness :
    transcribe_audio_with_local_gpu (fun _ => .ok [⟨0, 300, "a"⟩])
      = (.ok ⟨[(⟨0, 300, "a"⟩ : TranscriptSegment)],
          String.intercalate " "
            ([(⟨0, 300, "a"⟩ : TranscriptSegment)].map (fun s => s.text))⟩, 1)
    ∧ transcribe_audio_with_local_gpu (fun _ => .error "boom")
      = (.error (.transcriptionError ("GPU transcription failed: " ++ "boom")), 2) := by
  constructor
  · exact (C6_gpu_wrap_and_retry _).1 _ rfl
  · exact (C6_gpu_wrap_and_retry _).2 (fun _ => "boom") (fun _ => rfl)

/-! ### C9: cleanup and re-raise on pipeline failure -/

/-- The `try` block stops at the first failing stage with exactly that
stage's error and the filesystem as accumulated so far. -/
theorem run_stages_first_error :
    ∀ (stages : List (Except String (List String))) (fs : List String) (i : Nat)
      (h : i < stages.length) (e : String),
      stages.get ⟨i, h⟩ = .error e →
      (∀ j (hj : j < i), ∃ c, stages.get ⟨j, by omega⟩ = .ok c) →
      ∃ fs1, run_stages fs stages = (.error e, fs1) := by
  intro stages
  induction stages with
  | nil => intro fs i h; simp at h
  | cons s rest ih =>
    intro fs i h e hget hprev
    cases i with
    | zero =>
      have hs : s = .error e := hget
      subst hs
      exact ⟨fs, rfl⟩
    | succ j =>
      obtain ⟨c, hc⟩ := hprev 0 (by omega)
      have hs : s = .ok c := hc
      subst hs
      exact ih (fs ++ c.map session_path) j (by simpa using h) e hget
        (fun j2 hj2 => hprev (j2 + 1) (by omega))

/-- C9: if any stage of `process_youtube_video` fails, the orchestrator
re-raises that stage's error unchanged and leaves no file under the
session directory behind — the directory of intermediate files is
recursively removed. -/
theorem C9_cleanup_and_reraise (fs : List String)
    (stages : List (Except String (List String))) (i : Nat) (h : i < stages.length)
    (e : String) (hget : stages.get ⟨i, h⟩ = .error e)
    (hprev : ∀ j (hj : j < i), ∃ c, stages.get ⟨j, by omega⟩ = .ok c) :
    (process_youtube_video fs stages).1 = .error e
    ∧ ∀ p ∈ (process_youtube_video fs stages).2, p.startsWith "session/" = false := by
  obtain ⟨fs1, h1⟩ := run_stages_first_error stages fs i h e hget hprev
  unfold process_youtube_video
  rw [h1]
  refine ⟨rfl, ?_⟩
  intro p hp
  have hp2 : p ∈ cleanup_session fs1 := hp
  unfold cleanup_session at hp2
  have := List.of_mem_filter hp2
  simpa using this

/-- Witness for C9: a run whose download succeeds (creating
`session/audio.mp3`) and whose transcription stage fails re-raises the
transcription error and leaves no session file. -/
theorem C9_witness :
    (process_youtube_video ["downloads/other.txt"]
        [.ok ["audio.mp3"], .error "TranscriptionError: boom"]).1
      = .error "TranscriptionError: boom"
    ∧ ∀ p ∈ (process_youtube_video ["downloads/other.txt"]
        [.ok ["audio.mp3"], .error "TranscriptionError: boom"]).2,
        p.startsWith "session/" = false :=
  C9_cleanup_and_reraise ["downloads/other.txt"]
    [.ok ["audio.mp3"], .error "TranscriptionError: boom"] 1 (by decide)
    "TranscriptionError: boom" rfl
    (fun j hj => by
      cases j with
      | zero => exact ⟨["audio.mp3"], rfl⟩
      | succ n => omega)

end YTA
